import Mathlib

/-!
Verification of the particle-simulation engine in `src/src/main.cpp`.

The grid is a flat vector of heap-allocated `Particle`s addressed in row-major
order.  We embed the engine shallowly: the grid becomes a `List Particle`,
C++ pointers into the grid become `Option Nat` flat indices, `int` becomes
`Int`, and the in-place mutations become functional updates (`List.set`).
Randomness (`std::shuffle` over the global `std::default_random_engine`, and
the float radial sampling of the brush) is modelled explicitly below where a
claim needs it.
-/

namespace ParticleSim

/-- SDL_Color: four 8-bit channels.  Channel arithmetic never occurs in the
engine, so plain `Nat` fields are a faithful value model. -/
structure SDLColor where
  r : Nat
  g : Nat
  b : Nat
  a : Nat
deriving DecidableEq

instance : Inhabited SDLColor := ⟨⟨0, 0, 0, 0⟩⟩

/-- struct SpreadRules (main.cpp:67-73).  `std::map` keyed by material name is
modelled as an association list with first-match lookup; `std::vector` of
names as a list. -/
structure SpreadRules where
  spreadSpeed : Int
  canReplace : List String
  contactColors : List (String × SDLColor)
  contactSounds : List (String × String)
deriving DecidableEq

instance : Inhabited SpreadRules := ⟨⟨0, [], [], []⟩⟩

/-- struct Material (main.cpp:75-80).  `type` keeps the C++ enum encoding:
0 = NONE, 1 = SOLID, 2 = LIQUID, 3 = GAS. -/
structure Material where
  type : Int
  name : String
  color : SDLColor
deriving DecidableEq

instance : Inhabited Material := ⟨⟨0, "none", ⟨0, 0, 0, 0⟩⟩⟩

/-- struct Particle (main.cpp:82-88).  `lifeTime` is a `float` used only as an
opaque stored value (assigned, never computed with), so an integer-valued model
is faithful for every claim below. -/
structure Particle where
  lifeTime : Int
  hasBeenUpdatedThisFrame : Bool
  spreadRules : SpreadRules
  material : Material
deriving DecidableEq

instance : Inhabited Particle := ⟨⟨-1, false, default, default⟩⟩

/-- typedef Grid (main.cpp:104): the flat row-major cell vector. -/
abbrev Grid := List Particle

/-- Total read of a cell through a (valid) flat index. -/
def getP (cells : Grid) (i : Nat) : Particle := cells.getD i default

/-- GetCellIndex (main.cpp:144-147). -/
def GetCellIndex (gridWidth x y : Int) : Int :=
  y * gridWidth + x

/-- GetParticleAt (main.cpp:306-314).  The C++ returns a raw pointer into the
cell vector, or nullptr when the flat index fails `0 <= index < cells.size()`;
we return the flat index itself (`some i`) or `none`.  Note the source checks
only the flat index, not the coordinates. -/
def GetParticleAt (cells : Grid) (gridWidth x y : Int) : Option Nat :=
  let index := GetCellIndex gridWidth x y
  if 0 ≤ index ∧ index < (cells.length : Int) then some index.toNat else none

/-- ParticleIsEmpty (main.cpp:216-219). -/
def ParticleIsEmpty (p : Particle) : Bool :=
  p.material.name = "none"

/-- ParticleCanSpreadTo (main.cpp:190-206); the null-pointer guard of the C++
is handled at call sites, which always pass a valid particle. -/
def ParticleCanSpreadTo (p : Particle) (materialName : String) : Bool :=
  p.spreadRules.canReplace.contains materialName

/-- GetParticleContactColor (main.cpp:125-139): the mover's contactColors map
keyed by the touched material's name, falling back to {0,0,0,255}. -/
def GetParticleContactColor (p : Particle) (materialName : String) : SDLColor :=
  match p.spreadRules.contactColors.lookup materialName with
  | some c => c
  | none => ⟨0, 0, 0, 255⟩

/-- SwapParticles (main.cpp:461-467).  The C++ swaps `material.name`,
`material.type`, `material.color` (the whole `Material`) and `spreadRules`,
and does NOT touch `lifeTime` or `hasBeenUpdatedThisFrame`. -/
def SwapParticles (p1 p2 : Particle) : Particle × Particle :=
  ({ p1 with material := p2.material, spreadRules := p2.spreadRules },
   { p2 with material := p1.material, spreadRules := p1.spreadRules })

/-- Apply `SwapParticles` to the cells at flat indices `i` and `j`. -/
def swapCells (cells : Grid) (i j : Nat) : Grid :=
  let s := SwapParticles (getP cells i) (getP cells j)
  (cells.set i s.1).set j s.2

/-- Overwrite the display color of the cell at flat index `i`. -/
def setColor (cells : Grid) (i : Nat) (c : SDLColor) : Grid :=
  let p := getP cells i
  cells.set i { p with material := { p.material with color := c } }

/-- The repeated move pattern of the update rules (e.g. main.cpp:490-491):
`mover->material.color = GetParticleContactColor(mover, target->name);
SwapParticles(*target, *mover);` for mover index `si` and target index `ti`. -/
def contactMove (cells : Grid) (si ti : Nat) : Grid :=
  let colored := setColor cells si
    (GetParticleContactColor (getP cells si) ((getP cells ti).material.name))
  swapCells colored ti si

/-- `bParticle && (ParticleIsEmpty(bParticle) || ParticleCanSpreadTo(mover, bParticle->name))`
for an optional target index. -/
def canDisplace (cells : Grid) (si j : Nat) : Bool :=
  ParticleIsEmpty (getP cells j) ||
    ParticleCanSpreadTo (getP cells si) ((getP cells j).material.name)

/-- The below-move guard of UpdateSolid/UpdateLiquid, on an optional target. -/
def belowOk (cells : Grid) (si : Nat) : Option Nat → Bool
  | some j => canDisplace cells si j
  | none => false

/-- `particle && ParticleIsEmpty(particle)` on an optional target. -/
def emptyAt (cells : Grid) : Option Nat → Bool
  | some j => ParticleIsEmpty (getP cells j)
  | none => false

/-- UpdateSolid (main.cpp:479-503): below (empty-or-replaceable, with contact
color), else below-left (empty), else below-right (empty), else stay. -/
def UpdateSolid (cells : Grid) (gridWidth x y : Int) : Grid :=
  match GetParticleAt cells gridWidth x y with
  | none => cells
  | some si =>
    let bi := GetParticleAt cells gridWidth x (y + 1)
    let bli := GetParticleAt cells gridWidth (x - 1) (y + 1)
    let bri := GetParticleAt cells gridWidth (x + 1) (y + 1)
    if belowOk cells si bi then
      contactMove cells si (bi.getD 0)
    else if emptyAt cells bli then
      swapCells cells (bli.getD 0) si
    else if emptyAt cells bri then
      swapCells cells (bri.getD 0) si
    else
      cells

/-- UpdateLiquid (main.cpp:506-543): below (empty-or-replaceable, with contact
color), else below-left, else below-right, else left, else right (each strictly
empty), else stay. -/
def UpdateLiquid (cells : Grid) (gridWidth x y : Int) : Grid :=
  match GetParticleAt cells gridWidth x y with
  | none => cells
  | some si =>
    let li := GetParticleAt cells gridWidth (x - 1) y
    let ri := GetParticleAt cells gridWidth (x + 1) y
    let bi := GetParticleAt cells gridWidth x (y + 1)
    let bli := GetParticleAt cells gridWidth (x - 1) (y + 1)
    let bri := GetParticleAt cells gridWidth (x + 1) (y + 1)
    if belowOk cells si bi then
      contactMove cells si (bi.getD 0)
    else if emptyAt cells bli then
      swapCells cells (bli.getD 0) si
    else if emptyAt cells bri then
      swapCells cells (bri.getD 0) si
    else if emptyAt cells li then
      swapCells cells (li.getD 0) si
    else if emptyAt cells ri then
      swapCells cells (ri.getD 0) si
    else
      cells

/-- The direction candidates of UpdateGas (main.cpp:550-556), in declaration
order: above, left, right, below. -/
def gasDirections (cells : Grid) (gridWidth x y : Int) : List (Option Nat) :=
  [GetParticleAt cells gridWidth x (y - 1),
   GetParticleAt cells gridWidth (x - 1) y,
   GetParticleAt cells gridWidth (x + 1) y,
   GetParticleAt cells gridWidth x (y + 1)]

/-- The try-in-order loop of UpdateGas (main.cpp:559-567): first eligible
direction gets the contact-color-then-swap treatment, then `break`. -/
def gasTryMove (cells : Grid) (si : Nat) : List (Option Nat) → Grid
  | [] => cells
  | none :: rest => gasTryMove cells si rest
  | some j :: rest =>
    if canDisplace cells si j then contactMove cells si j
    else gasTryMove cells si rest

/-- UpdateGas after the shuffle: the loop body applied to the shuffled
direction list. -/
def UpdateGasWith (cells : Grid) (gridWidth x y : Int)
    (shuffled : List (Option Nat)) : Grid :=
  match GetParticleAt cells gridWidth x y with
  | none => cells
  | some si => gasTryMove cells si shuffled

/-! The process-wide random generators (main.cpp:110-112).
`std::default_random_engine rng;` is default-constructed and never seeded: per
the C++ standard it starts from the fixed `default_seed` and evolves
deterministically; we model it as the minimal standard LCG.  `std::mt19937
gen(rd());` is seeded from `std::random_device`, i.e. from a run-dependent
value.  The exact engine choice is implementation-defined; every claim below
uses only that the engine is a deterministic function of its state. -/

/-- The engine state a default-constructed `std::default_random_engine` starts
from (the standard `default_seed`). -/
def defaultEngineState : Nat := 1

/-- One deterministic engine step. -/
def engineNext (s : Nat) : Nat := (16807 * s) % 2147483647

/-- One engine draw reduced to the range `[0, n]`, as consumed by
`std::shuffle` for the swap partner of position `n`. -/
def drawBounded (s n : Nat) : Nat × Nat :=
  (engineNext s % (n + 1), engineNext s)

/-- Exchange the elements at positions `i` and `j`. -/
def listSwap {α : Type} [Inhabited α] (l : List α) (i j : Nat) : List α :=
  (l.set i (l.getD j default)).set j (l.getD i default)

/-- The Fisher-Yates loop of `std::shuffle`: for `i` from `n-1` down to `1`,
draw `j` in `[0, i]` and swap positions `i` and `j`. -/
def shuffleGo {α : Type} [Inhabited α] : Nat → List α × Nat → List α × Nat
  | 0, st => st
  | i + 1, (l, s) =>
    shuffleGo i (listSwap l (i + 1) (drawBounded s (i + 1)).1,
      (drawBounded s (i + 1)).2)

/-- `std::shuffle(begin, end, rng)`: shuffles the list, advancing the engine
state. -/
def stdShuffle {α : Type} [Inhabited α] (l : List α) (s : Nat) :
    List α × Nat :=
  shuffleGo (l.length - 1) (l, s)

/-- UpdateGas (main.cpp:546-568): shuffle the four direction candidates with
the global `rng`, then try them in order. -/
def UpdateGas (cells : Grid) (gridWidth x y : Int) (s : Nat) : Grid × Nat :=
  (UpdateGasWith cells gridWidth x y
     (stdShuffle (gasDirections cells gridWidth x y) s).1,
   (stdShuffle (gasDirections cells gridWidth x y) s).2)

/-- The per-cell dispatch of the scan loop (main.cpp:620-641): read the cell's
material type and run the matching movement rule (1 = solid, 2 = liquid,
3 = gas; 0/None and unknown types do nothing).  The engine state is threaded
because only the gas rule consumes randomness. -/
def updateCell (gridWidth : Int) (st : Grid × Nat) (x y : Int) : Grid × Nat :=
  match GetParticleAt st.1 gridWidth x y with
  | none => st
  | some i =>
    let t := (getP st.1 i).material.type
    if t = 1 then (UpdateSolid st.1 gridWidth x y, st.2)
    else if t = 2 then (UpdateLiquid st.1 gridWidth x y, st.2)
    else if t = 3 then UpdateGas st.1 gridWidth x y st.2
    else st

/-- One row of the scan: `x` from `0` to `gridWidth - 1`. -/
def tickRow (gridWidth y : Int) (st : Grid × Nat) : Grid × Nat :=
  (List.range gridWidth.toNat).foldl
    (fun st xi => updateCell gridWidth st (Int.ofNat xi) y) st

/-- The scan phase of UpdateParticleSimulation (main.cpp:614-643): `y` from
`gridHeight - 1` down to `1` (the loop condition is `y > 0`, so the top row is
never visited as a mover), `x` from `0` to `gridWidth - 1`.  The second nested
loop of the C++ function only renders and never writes the grid, so it is not
part of the grid semantics. -/
def UpdateParticleSimulation (gridWidth gridHeight : Int) (g : Grid)
    (s : Nat) : Grid × Nat :=
  (List.range (gridHeight - 1).toNat).foldl
    (fun st k => tickRow gridWidth (gridHeight - 1 - Int.ofNat k) st) (g, s)

/-! Spec-side description of the movement rules (claims C2, C8): a rule walks
a priority-ordered candidate list, each candidate tagged with its eligibility
mode (the primary "below" move may displace via canReplace, every other move
needs an "empty" target), and performs at most one swap — with the first
eligible candidate.  "Empty" here is the program's own test,
`ParticleIsEmpty`: material NAME equal to "none".  That is weaker than the
spec's "strictly empty (category None)" wording — a cell can carry the name
"none" with a Solid category (painting the default "none" material with no
catalog entry produces one), and the code moves into such a cell; this
divergence is the C2 correction, exhibited by
`solid_moves_into_nonempty_category_cell` below. -/

/-- Eligibility mode of a move candidate. -/
inductive Eligibility where
  | displace
  | emptyOnly
deriving DecidableEq

/-- Whether a candidate target is eligible under its mode. -/
def candidateOk (cells : Grid) (si : Nat) : Option Nat × Eligibility → Bool
  | (some j, .displace) => canDisplace cells si j
  | (some j, .emptyOnly) => ParticleIsEmpty (getP cells j)
  | (none, _) => false

/-- The first eligible candidate in priority order, if any. -/
def firstMove (cells : Grid) (si : Nat) :
    List (Option Nat × Eligibility) → Option (Nat × Eligibility)
  | [] => none
  | c :: rest =>
    if candidateOk cells si c then some (c.1.getD 0, c.2)
    else firstMove cells si rest

/-- Perform the selected move: a displace move updates the mover's contact
color before the swap, an empty-only move just swaps; no candidate, no move. -/
def applyMove (cells : Grid) (si : Nat) : Option (Nat × Eligibility) → Grid
  | none => cells
  | some (j, .displace) => contactMove cells si j
  | some (j, .emptyOnly) => swapCells cells j si

/-- Solid priority: below, then below-left, then below-right. -/
def solidCandidates (cells : Grid) (gridWidth x y : Int) :
    List (Option Nat × Eligibility) :=
  [(GetParticleAt cells gridWidth x (y + 1), .displace),
   (GetParticleAt cells gridWidth (x - 1) (y + 1), .emptyOnly),
   (GetParticleAt cells gridWidth (x + 1) (y + 1), .emptyOnly)]

/-- Liquid priority: below, below-left, below-right, left, right. -/
def liquidCandidates (cells : Grid) (gridWidth x y : Int) :
    List (Option Nat × Eligibility) :=
  [(GetParticleAt cells gridWidth x (y + 1), .displace),
   (GetParticleAt cells gridWidth (x - 1) (y + 1), .emptyOnly),
   (GetParticleAt cells gridWidth (x + 1) (y + 1), .emptyOnly),
   (GetParticleAt cells gridWidth (x - 1) y, .emptyOnly),
   (GetParticleAt cells gridWidth (x + 1) y, .emptyOnly)]

/-- The solid rule as the spec words it. -/
def UpdateSolidSpec (cells : Grid) (gridWidth x y : Int) : Grid :=
  match GetParticleAt cells gridWidth x y with
  | none => cells
  | some si =>
    applyMove cells si (firstMove cells si (solidCandidates cells gridWidth x y))

/-- The liquid rule as the spec words it. -/
def UpdateLiquidSpec (cells : Grid) (gridWidth x y : Int) : Grid :=
  match GetParticleAt cells gridWidth x y with
  | none => cells
  | some si =>
    applyMove cells si (firstMove cells si (liquidCandidates cells gridWidth x y))

/-- The first eligible gas direction in the (shuffled) candidate list. -/
def gasFirstEligible (cells : Grid) (si : Nat) : List (Option Nat) → Option Nat
  | [] => none
  | none :: rest => gasFirstEligible cells si rest
  | some j :: rest =>
    if canDisplace cells si j then some j else gasFirstEligible cells si rest

/-! The material catalog and the brush/reveal engine (claims C5, C9).
materials.json is external configuration; its parsed content is modelled as a
list of entries in file order, exactly the shape LoadParticleMaterial
iterates over. -/

/-- One entry of materials.json as consumed by LoadParticleMaterial
(main.cpp:334-367). -/
structure CustomMaterial where
  name : String
  type : Int
  initialLifeTime : Int
  initialColor : Nat × Nat × Nat
  canReplace : List String
  contactColors : List (String × SDLColor)
  contactSounds : List (String × String)
  spreadSpeed : Int
deriving DecidableEq

/-- `std::map::operator[] = v`: overwrite the existing key or insert it. -/
def insertAssoc (m : List (String × SDLColor)) (k : String) (v : SDLColor) :
    List (String × SDLColor) :=
  match m with
  | [] => [(k, v)]
  | (k1, v1) :: rest =>
    if k1 = k then (k1, v) :: rest else (k1, v1) :: insertAssoc rest k v

/-- The assignments performed for one matching catalog entry
(main.cpp:344-365).  Note the C++ writes the three-channel initial color with
alpha left zero, inserts contact colors key-by-key into the particle's
existing map, and wholesale-replaces the contact-sound map. -/
def applyCatalogEntry (p : Particle) (m : CustomMaterial) : Particle :=
  { p with
    lifeTime := m.initialLifeTime,
    material :=
      { type := m.type, name := m.name,
        color := ⟨m.initialColor.1, m.initialColor.2.1, m.initialColor.2.2, 0⟩ },
    spreadRules :=
      { spreadSpeed := m.spreadSpeed,
        canReplace := m.canReplace,
        contactColors := m.contactColors.foldl
          (fun acc kv => insertAssoc acc kv.1 kv.2) p.spreadRules.contactColors,
        contactSounds := m.contactSounds } }

/-- LoadParticleMaterial (main.cpp:334-367): walk every catalog entry and
apply each one whose name matches the particle's current material name
(duplicates: last match wins, as in the C++ loop without break). -/
def LoadParticleMaterial (p : Particle) (data : List CustomMaterial) : Particle :=
  data.foldl
    (fun p m => if m.name = p.material.name then applyCatalogEntry p m else p) p

/-- RevealParticleAt (main.cpp:410-426): unconditionally writes the selected
name and forces MATERIAL_TYPE_SOLID into the target cell, then runs the
catalog load — which overwrites those fields again only when a matching entry
exists. -/
def RevealParticleAt (cells : Grid) (gridWidth x y : Int)
    (materialName : String) (data : List CustomMaterial) : Grid :=
  match GetParticleAt cells gridWidth x y with
  | none => cells
  | some i =>
    let p0 := getP cells i
    let p1 := { p0 with material :=
      { p0.material with name := materialName, type := 1 } }
    cells.set i (LoadParticleMaterial p1 data)

/-- SDL_Rect as the brush code uses it: RevealParticlesAt reads `x, y` as the
box start and `w, h` as the box END coordinates (main.cpp:429-435). -/
structure Rect where
  x : Int
  y : Int
  w : Int
  h : Int
deriving DecidableEq

/-- MouseCoordinatesToBounds (main.cpp:290-301); C++ `int` division truncates
toward zero, hence `Int.tdiv`. -/
def MouseCoordinatesToBounds (gridWidth gridHeight cellSize mouseX mouseY
    extent : Int) : Rect :=
  ⟨max 0 (Int.tdiv mouseX cellSize - extent),
   max 0 (Int.tdiv mouseY cellSize - extent),
   min (gridWidth - 1) (Int.tdiv mouseX cellSize + extent),
   min (gridHeight - 1) (Int.tdiv mouseY cellSize + extent)⟩

/-- The paint-attempt count of RevealParticlesAt (main.cpp:436-440):
`static_cast<int>(totalParticles * 0.2)`.  For every box area the program can
produce, the double product `total * 0.2` truncates to exactly
`⌊total / 5⌋` (the rounding error of the product is far below the distance to
the next integer), so the count is modelled by exact truncated division. -/
def particlesToReveal (bounds : Rect) : Nat :=
  (Int.tdiv ((bounds.w - bounds.x + 1) * (bounds.h - bounds.y + 1)) 5).toNat

/-- The clamp of a sampled coordinate back into the box (main.cpp:452-454). -/
def clampScatter (bounds : Rect) (c : Int × Int) : Int × Int :=
  (max bounds.x (min c.1 bounds.w), max bounds.y (min c.2 bounds.h))

/-- The coordinates painted by RevealParticlesAt, in iteration order:
`samples i` stands for the pre-clamp integer coordinates of iteration `i`,
i.e. `(int(centerX + radius*cos angle), int(centerY + radius*sin angle))` —
the floating-point radial sampling parameterized by its outcomes. -/
def scatterCoords (bounds : Rect) (samples : Nat → Int × Int) :
    List (Int × Int) :=
  (List.range (particlesToReveal bounds)).map
    (fun i => clampScatter bounds (samples i))

/-- RevealParticlesAt (main.cpp:429-458): perform `particlesToReveal` paint
attempts, each at a sampled coordinate clamped into the box. -/
def RevealParticlesAt (cells : Grid) (gridWidth : Int) (bounds : Rect)
    (materialName : String) (data : List CustomMaterial)
    (samples : Nat → Int × Int) : Grid :=
  (List.range (particlesToReveal bounds)).foldl
    (fun g i =>
      RevealParticleAt g gridWidth (clampScatter bounds (samples i)).1
        (clampScatter bounds (samples i)).2 materialName data) cells

/-! Run model for claim C10.  A run of the program is identified by the value
its `std::random_device` produced; `rng` is default-constructed independently
of it, `gen` is seeded from it (main.cpp:110-112). -/

/-- One run of the program. -/
structure ProgramRun where
  rdSeed : Nat

/-- The state `std::default_random_engine rng;` starts from — the fixed
default seed, whatever the run. -/
def initialRngState (_r : ProgramRun) : Nat := defaultEngineState

/-- The state `std::mt19937 gen(rd());` starts from — the run's
random_device value. -/
def initialGenState (r : ProgramRun) : Nat := r.rdSeed

/-- The four gas direction slots (above, left, right, below) as abstract
positions; each gas update shuffles such a four-element list. -/
def gasShuffleTemplate : List (Fin 4) := [0, 1, 2, 3]

/-- The rng state after `k` gas shuffles of a run. -/
def rngStateAfter (r : ProgramRun) : Nat → Nat
  | 0 => initialRngState r
  | k + 1 => (stdShuffle gasShuffleTemplate (rngStateAfter r k)).2

/-- The `k`-th gas-direction permutation a run draws. -/
def kthGasShuffle (r : ProgramRun) (k : Nat) : List (Fin 4) :=
  (stdShuffle gasShuffleTemplate (rngStateAfter r k)).1

/-! Concrete inputs used by counterexamples and witnesses. -/

/-- A particle of the given type, name and color with no spread rules. -/
def mkParticle (t : Int) (nm : String) (c : SDLColor) : Particle :=
  { lifeTime := -1, hasBeenUpdatedThisFrame := false, spreadRules := default,
    material := { type := t, name := nm, color := c } }

/-- The §8 end-to-end scenario: a 3×3 all-empty grid (as built by main(),
main.cpp:919-926) with a Solid "sand" at `(1, 0)`, flat index 1. -/
def gridTop : Grid :=
  (List.replicate 9 (default : Particle)).set 1
    (mkParticle 1 "sand" ⟨200, 180, 0, 255⟩)

/-- A 1×2 column: "sand" above an empty cell. -/
def gridFall : Grid := [mkParticle 1 "sand" ⟨200, 180, 0, 255⟩, default]

/-- A single "water" cell with a distinctive lifetime and color. -/
def gridPaint : Grid :=
  [{ lifeTime := 5, hasBeenUpdatedThisFrame := false, spreadRules := default,
     material := { type := 2, name := "water", color := ⟨9, 9, 9, 9⟩ } }]

/-- A 3×3 all-empty grid with a Gas "steam" at the center `(1, 1)`, flat
index 4; all four of its neighbors exist and are empty. -/
def gridGas : Grid :=
  (List.replicate 9 (default : Particle)).set 4
    (mkParticle 3 "steam" ⟨120, 120, 120, 255⟩)

/-- A 3×3 grid: a Liquid "water" at the center `(1, 1)` (flat index 4), the
whole bottom row `y = 2` filled with "stone" solids, left and right neighbors
empty — the liquid-spreads-left scenario. -/
def gridLiq : Grid :=
  ((((List.replicate 9 (default : Particle)).set 4
      (mkParticle 2 "water" ⟨0, 0, 255, 255⟩)).set 6
      (mkParticle 1 "stone" ⟨90, 90, 90, 255⟩)).set 7
      (mkParticle 1 "stone" ⟨90, 90, 90, 255⟩)).set 8
      (mkParticle 1 "stone" ⟨90, 90, 90, 255⟩)

/-- Two particles with distinct lifetimes, materials and colors. -/
def lifeA : Particle :=
  { lifeTime := 7, hasBeenUpdatedThisFrame := false, spreadRules := default,
    material := { type := 2, name := "water", color := ⟨0, 0, 255, 255⟩ } }

/-- See `lifeA`. -/
def lifeB : Particle :=
  { lifeTime := 9, hasBeenUpdatedThisFrame := false, spreadRules := default,
    material := { type := 1, name := "sand", color := ⟨200, 180, 0, 255⟩ } }

/-- A concrete 5×5 brush box starting at the origin. -/
def rectSample : Rect := ⟨0, 0, 4, 4⟩

/-- A 3×3 grid exhibiting the name-vs-category divergence: a Solid "sand" at
the center `(1, 1)` (flat index 4), a non-replaceable "stone" directly below
at `(1, 2)` (index 7), a "stone" below-right at `(2, 2)` (index 8), and at
below-left `(0, 2)` (index 6) a cell whose material NAME is "none" but whose
CATEGORY is Solid (type 1) — the state `RevealParticleAt` leaves behind when
the default "none" material is painted with no catalog entry. -/
def gridAnom : Grid :=
  ((((List.replicate 9 (default : Particle)).set 4
      (mkParticle 1 "sand" ⟨200, 180, 0, 255⟩)).set 6
      (mkParticle 1 "none" ⟨50, 50, 50, 255⟩)).set 7
      (mkParticle 1 "stone" ⟨90, 90, 90, 255⟩)).set 8
      (mkParticle 1 "stone" ⟨90, 90, 90, 255⟩)

/-- A 3×3 grid: a Solid "sand" at the center `(1, 1)` (flat index 4), blocked
below by a "stone" at `(1, 2)` (index 7), with the below-left cell `(0, 2)`
(index 6) truly empty — the solid slides diagonally. -/
def gridSlide : Grid :=
  (((List.replicate 9 (default : Particle)).set 4
      (mkParticle 1 "sand" ⟨200, 180, 0, 255⟩)).set 7
      (mkParticle 1 "stone" ⟨90, 90, 90, 255⟩))

/-- The material identity stored in a particle. -/
def matName (p : Particle) : String := p.material.name

/-- The row-major list of material identities of a grid. -/
def namesOf (g : Grid) : List String := g.map matName

/-- `g'` has exactly the cells of `g`: same cell count and the same number of
particles of every material identity. -/
def Conserves (g g' : Grid) : Prop :=
  g'.length = g.length ∧
    ∀ n : String, (namesOf g').count n = (namesOf g).count n

/-! General facts about `List.set`, used to reason about in-place cell
mutation. -/

theorem getD_set_same {α : Type} (l : List α) (i : Nat) (b d : α)
    (hi : i < l.length) : (l.set i b).getD i d = b := by
  rw [List.getD_eq_getElem?_getD, List.getElem?_set_self hi]
  rfl

theorem getD_set_other {α : Type} (l : List α) (i j : Nat) (b d : α)
    (h : i ≠ j) : (l.set i b).getD j d = l.getD j d := by
  rw [List.getD_eq_getElem?_getD, List.getElem?_set_ne h,
    ← List.getD_eq_getElem?_getD]

theorem set_getD_self {α : Type} (l : List α) (i : Nat) (d : α)
    (hi : i < l.length) : l.set i (l.getD i d) = l := by
  induction l generalizing i with
  | nil => simp at hi
  | cons x xs ih =>
    cases i with
    | zero => simp
    | succ n =>
      simp only [List.getD_cons_succ, List.set_cons_succ, List.cons.injEq,
        true_and]
      exact ih n (by simpa using hi)

theorem getP_set_same (l : Grid) (i : Nat) (b : Particle)
    (hi : i < l.length) : getP (l.set i b) i = b :=
  getD_set_same l i b default hi

theorem getP_set_other (l : Grid) (i j : Nat) (b : Particle) (h : i ≠ j) :
    getP (l.set i b) j = getP l j :=
  getD_set_other l i j b default h

/-- Replacing one element changes element counts by exactly the swap of the
old value for the new one. -/
theorem count_set_add {α : Type} [DecidableEq α] (l : List α) (i : Nat)
    (b d a : α) (hi : i < l.length) :
    (l.set i b).count a + (if l.getD i d = a then 1 else 0)
      = l.count a + (if b = a then 1 else 0) := by
  induction l generalizing i with
  | nil => simp at hi
  | cons x xs ih =>
    cases i with
    | zero =>
      simp only [List.set_cons_zero, List.getD_cons_zero, List.count_cons,
        beq_iff_eq]
      by_cases h1 : x = a <;> by_cases h2 : b = a <;> simp [h1, h2]
    | succ n =>
      simp only [List.set_cons_succ, List.getD_cons_succ, List.count_cons,
        beq_iff_eq]
      have h := ih n (by simpa using hi)
      generalize (if xs.getD n d = a then 1 else 0) = e1 at h ⊢
      generalize (if b = a then 1 else 0) = e2 at h ⊢
      generalize (if x = a then 1 else 0) = e3
      omega

/-- Exchanging the values at two positions preserves every element count. -/
theorem count_set_set_swap {α : Type} [DecidableEq α] (l : List α) (i j : Nat)
    (d a : α) (hi : i < l.length) (hj : j < l.length) :
    ((l.set i (l.getD j d)).set j (l.getD i d)).count a = l.count a := by
  have h1 := count_set_add l i (l.getD j d) d a hi
  have hj' : j < (l.set i (l.getD j d)).length := by simpa using hj
  have h2 := count_set_add (l.set i (l.getD j d)) j (l.getD i d) d a hj'
  have h3 : (l.set i (l.getD j d)).getD j d = l.getD j d := by
    by_cases hij : i = j
    · subst hij
      exact getD_set_same l i (l.getD i d) d hi
    · exact getD_set_other l i j (l.getD j d) d hij
  rw [h3] at h2
  generalize (if l.getD i d = a then 1 else 0) = e1 at h1 h2
  generalize (if l.getD j d = a then 1 else 0) = e2 at h1 h2
  omega

/-! Conservation of the material-identity multiset (claim C1).  The scan phase
of a tick mutates the grid only through `setColor` (which does not touch the
name) and `swapCells` (which exchanges two cells' names), so the per-identity
cell counts are invariant. -/

theorem conserves_refl (g : Grid) : Conserves g g := ⟨rfl, fun _ => rfl⟩

theorem conserves_trans {g1 g2 g3 : Grid} (h1 : Conserves g1 g2)
    (h2 : Conserves g2 g3) : Conserves g1 g3 :=
  ⟨h2.1.trans h1.1, fun n => (h2.2 n).trans (h1.2 n)⟩

theorem namesOf_length (g : Grid) : (namesOf g).length = g.length := by
  simp [namesOf]

theorem namesOf_set (g : Grid) (i : Nat) (p : Particle) :
    namesOf (g.set i p) = (namesOf g).set i (matName p) := by
  simp [namesOf, List.map_set]

theorem namesOf_getD (g : Grid) (i : Nat) :
    (namesOf g).getD i (matName default) = matName (getP g i) := by
  simp [namesOf, getP, List.getD_map]

/-- Setting a cell to a particle with the same identity conserves the grid. -/
theorem conserves_set_same_name (g : Grid) (i : Nat) (p : Particle)
    (hi : i < g.length) (hname : matName p = matName (getP g i)) :
    Conserves g (g.set i p) := by
  refine ⟨by simp, fun n => ?_⟩
  rw [namesOf_set, hname, ← namesOf_getD,
    set_getD_self (namesOf g) i (matName default) (by rwa [namesOf_length])]

theorem conserves_setColor (g : Grid) (i : Nat) (c : SDLColor)
    (hi : i < g.length) : Conserves g (setColor g i c) :=
  conserves_set_same_name g i _ hi rfl

theorem conserves_swapCells (g : Grid) (i j : Nat) (hi : i < g.length)
    (hj : j < g.length) : Conserves g (swapCells g i j) := by
  refine ⟨by simp [swapCells], fun n => ?_⟩
  have hmap : namesOf (swapCells g i j)
      = ((namesOf g).set i ((namesOf g).getD j (matName default))).set j
          ((namesOf g).getD i (matName default)) := by
    simp only [swapCells, SwapParticles, namesOf_set, namesOf_getD]
    rfl
  rw [hmap]
  exact count_set_set_swap (namesOf g) i j (matName default) n
    (by rwa [namesOf_length]) (by rwa [namesOf_length])

theorem conserves_contactMove (g : Grid) (si ti : Nat) (hsi : si < g.length)
    (hti : ti < g.length) : Conserves g (contactMove g si ti) := by
  have hlen : ∀ c : SDLColor, (setColor g si c).length = g.length := by
    intro c
    simp [setColor]
  exact conserves_trans
    (conserves_setColor g si
      (GetParticleContactColor (getP g si) ((getP g ti).material.name)) hsi)
    (conserves_swapCells _ ti si (by rw [hlen]; exact hti)
      (by rw [hlen]; exact hsi))

/-- A valid lookup yields an index inside the cell vector. -/
theorem GetParticleAt_lt {g : Grid} {w x y : Int} {i : Nat}
    (h : GetParticleAt g w x y = some i) : i < g.length := by
  simp only [GetParticleAt] at h
  generalize GetCellIndex w x y = k at h
  split at h
  · rename_i hcond
    cases h
    omega
  · cases h

theorem listSwap_length {α : Type} [Inhabited α] (l : List α) (i j : Nat) :
    (listSwap l i j).length = l.length := by
  simp [listSwap]

theorem listSwap_perm {α : Type} [Inhabited α] [DecidableEq α] (l : List α)
    (i j : Nat) (hi : i < l.length) (hj : j < l.length) :
    (listSwap l i j).Perm l := by
  rw [List.perm_iff_count]
  intro a
  exact count_set_set_swap l i j default a hi hj

theorem shuffleGo_perm {α : Type} [Inhabited α] [DecidableEq α] :
    ∀ (i : Nat) (l : List α) (s : Nat), i < l.length →
      ((shuffleGo i (l, s)).1).Perm l := by
  intro i
  induction i with
  | zero =>
    intro l s _
    simp [shuffleGo]
  | succ n ih =>
    intro l s h
    have hj : (drawBounded s (n + 1)).1 < l.length := by
      have : (drawBounded s (n + 1)).1 < n + 2 := by
        simp only [drawBounded]
        exact Nat.mod_lt _ (by omega)
      omega
    have hlen : (listSwap l (n + 1) (drawBounded s (n + 1)).1).length
        = l.length := listSwap_length l (n + 1) (drawBounded s (n + 1)).1
    have hrec := ih (listSwap l (n + 1) (drawBounded s (n + 1)).1)
      ((drawBounded s (n + 1)).2) (by omega)
    exact hrec.trans (listSwap_perm l (n + 1) (drawBounded s (n + 1)).1 h hj)

theorem stdShuffle_perm {α : Type} [Inhabited α] [DecidableEq α] (l : List α)
    (s : Nat) : ((stdShuffle l s).1).Perm l := by
  cases l with
  | nil => simp [stdShuffle, shuffleGo]
  | cons x xs => exact shuffleGo_perm _ _ _ (by simp)

theorem conserves_UpdateSolid (g : Grid) (w x y : Int) :
    Conserves g (UpdateSolid g w x y) := by
  rw [UpdateSolid]
  cases hsi : GetParticleAt g w x y with
  | none => exact conserves_refl g
  | some si =>
    have hsil := GetParticleAt_lt hsi
    simp only
    split
    · rename_i h1
      cases hbi : GetParticleAt g w x (y + 1) with
      | none => simp [hbi, belowOk] at h1
      | some j =>
        exact conserves_contactMove g si j hsil (GetParticleAt_lt hbi)
    · split
      · rename_i h1 h2
        cases hbl : GetParticleAt g w (x - 1) (y + 1) with
        | none => simp [hbl, emptyAt] at h2
        | some j =>
          exact conserves_swapCells g j si (GetParticleAt_lt hbl) hsil
      · split
        · rename_i h1 h2 h3
          cases hbr : GetParticleAt g w (x + 1) (y + 1) with
          | none => simp [hbr, emptyAt] at h3
          | some j =>
            exact conserves_swapCells g j si (GetParticleAt_lt hbr) hsil
        · exact conserves_refl g

theorem conserves_UpdateLiquid (g : Grid) (w x y : Int) :
    Conserves g (UpdateLiquid g w x y) := by
  rw [UpdateLiquid]
  cases hsi : GetParticleAt g w x y with
  | none => exact conserves_refl g
  | some si =>
    have hsil := GetParticleAt_lt hsi
    simp only
    split
    · rename_i h1
      cases hbi : GetParticleAt g w x (y + 1) with
      | none => simp [hbi, belowOk] at h1
      | some j =>
        exact conserves_contactMove g si j hsil (GetParticleAt_lt hbi)
    · split
      · rename_i h1 h2
        cases hbl : GetParticleAt g w (x - 1) (y + 1) with
        | none => simp [hbl, emptyAt] at h2
        | some j =>
          exact conserves_swapCells g j si (GetParticleAt_lt hbl) hsil
      · split
        · rename_i h1 h2 h3
          cases hbr : GetParticleAt g w (x + 1) (y + 1) with
          | none => simp [hbr, emptyAt] at h3
          | some j =>
            exact conserves_swapCells g j si (GetParticleAt_lt hbr) hsil
        · split
          · rename_i h1 h2 h3 h4
            cases hl : GetParticleAt g w (x - 1) y with
            | none => simp [hl, emptyAt] at h4
            | some j =>
              exact conserves_swapCells g j si (GetParticleAt_lt hl) hsil
          · split
            · rename_i h1 h2 h3 h4 h5
              cases hr : GetParticleAt g w (x + 1) y with
              | none => simp [hr, emptyAt] at h5
              | some j =>
                exact conserves_swapCells g j si (GetParticleAt_lt hr) hsil
            · exact conserves_refl g

theorem conserves_gasTryMove (g : Grid) (si : Nat) (hsi : si < g.length) :
    ∀ ds : List (Option Nat), (∀ j, some j ∈ ds → j < g.length) →
      Conserves g (gasTryMove g si ds) := by
  intro ds
  induction ds with
  | nil =>
    intro _
    exact conserves_refl g
  | cons d rest ih =>
    intro hb
    cases d with
    | none => exact ih fun j hj => hb j (List.mem_cons_of_mem _ hj)
    | some j =>
      simp only [gasTryMove]
      split
      · exact conserves_contactMove g si j hsi (hb j (List.mem_cons_self _ _))
      · exact ih fun j' hj' => hb j' (List.mem_cons_of_mem _ hj')

theorem gasDirections_bounded (g : Grid) (w x y : Int) :
    ∀ j, some j ∈ gasDirections g w x y → j < g.length := by
  intro j hj
  simp only [gasDirections, List.mem_cons, List.not_mem_nil, or_false] at hj
  rcases hj with h | h | h | h <;> exact GetParticleAt_lt h.symm

theorem conserves_UpdateGasWith (g : Grid) (w x y : Int)
    (sh : List (Option Nat)) (hb : ∀ j, some j ∈ sh → j < g.length) :
    Conserves g (UpdateGasWith g w x y sh) := by
  rw [UpdateGasWith]
  cases hsi : GetParticleAt g w x y with
  | none => exact conserves_refl g
  | some si => exact conserves_gasTryMove g si (GetParticleAt_lt hsi) sh hb

theorem conserves_UpdateGas (g : Grid) (w x y : Int) (s : Nat) :
    Conserves g (UpdateGas g w x y s).1 := by
  apply conserves_UpdateGasWith
  intro j hj
  exact gasDirections_bounded g w x y j
    ((stdShuffle_perm (gasDirections g w x y) s).mem_iff.mp hj)

theorem conserves_updateCell (w : Int) (st : Grid × Nat) (x y : Int) :
    Conserves st.1 (updateCell w st x y).1 := by
  rw [updateCell]
  cases h : GetParticleAt st.1 w x y with
  | none => exact conserves_refl _
  | some i =>
    simp only
    split
    · exact conserves_UpdateSolid st.1 w x y
    · split
      · exact conserves_UpdateLiquid st.1 w x y
      · split
        · exact conserves_UpdateGas st.1 w x y st.2
        · exact conserves_refl _

theorem conserves_foldl {β : Type} (f : (Grid × Nat) → β → (Grid × Nat))
    (hf : ∀ st b, Conserves st.1 (f st b).1) :
    ∀ (l : List β) (st : Grid × Nat), Conserves st.1 ((l.foldl f st).1) := by
  intro l
  induction l with
  | nil =>
    intro st
    exact conserves_refl _
  | cons b rest ih =>
    intro st
    exact conserves_trans (hf st b) (ih (f st b))

theorem conserves_tickRow (w y : Int) (st : Grid × Nat) :
    Conserves st.1 (tickRow w y st).1 :=
  conserves_foldl _ (fun st xi => conserves_updateCell w st (Int.ofNat xi) y)
    (List.range w.toNat) st

/-- C1: one update tick (the scan phase of UpdateParticleSimulation) keeps the
cell count of the grid unchanged — every position still holds exactly one
particle — and conserves the per-identity particle counts: the only grid
mutations of a tick are display-color writes and SwapParticles exchanges of
two existing cells, which never create or destroy a particle. -/
theorem tick_conserves_materials (gridWidth gridHeight : Int) (g : Grid)
    (s : Nat) :
    (UpdateParticleSimulation gridWidth gridHeight g s).1.length = g.length ∧
    ∀ n : String,
      (namesOf (UpdateParticleSimulation gridWidth gridHeight g s).1).count n
        = (namesOf g).count n := by
  have h := conserves_foldl
    (fun st k => tickRow gridWidth (gridHeight - 1 - Int.ofNat k) st)
    (fun st k => conserves_tickRow gridWidth (gridHeight - 1 - Int.ofNat k) st)
    (List.range (gridHeight - 1).toNat) (g, s)
  exact h

theorem UpdateSolid_eq_spec (g : Grid) (w x y : Int) :
    UpdateSolid g w x y = UpdateSolidSpec g w x y := by
  simp only [UpdateSolid, UpdateSolidSpec, solidCandidates]
  cases hsi : GetParticleAt g w x y with
  | none => rfl
  | some si =>
    cases hb : GetParticleAt g w x (y + 1) <;>
      cases hbl : GetParticleAt g w (x - 1) (y + 1) <;>
        cases hbr : GetParticleAt g w (x + 1) (y + 1) <;>
          simp [firstMove, candidateOk, applyMove, belowOk, emptyAt] <;>
            split_ifs <;> rfl

theorem UpdateLiquid_eq_spec (g : Grid) (w x y : Int) :
    UpdateLiquid g w x y = UpdateLiquidSpec g w x y := by
  simp only [UpdateLiquid, UpdateLiquidSpec, liquidCandidates]
  cases hsi : GetParticleAt g w x y with
  | none => rfl
  | some si =>
    cases hl : GetParticleAt g w (x - 1) y <;>
      cases hr : GetParticleAt g w (x + 1) y <;>
        cases hb : GetParticleAt g w x (y + 1) <;>
          cases hbl : GetParticleAt g w (x - 1) (y + 1) <;>
            cases hbr : GetParticleAt g w (x + 1) (y + 1) <;>
              simp [firstMove, candidateOk, applyMove, belowOk, emptyAt] <;>
                split_ifs <;> rfl

/-- C2 counterexample: the claim requires every non-below move to have a
target of category None, but the code's emptiness test is the material NAME.
In `gridAnom` the sand's below target is a non-replaceable "stone" (so the
below move is ineligible under either reading) and both diagonal targets have
category Solid (type 1), so under the claim no direction is eligible and the
particle must not move — yet the below-left cell is merely NAMED "none", and
`UpdateSolid` swaps the sand into that Solid-category cell. -/
theorem solid_moves_into_nonempty_category_cell :
    (gridAnom.getD 7 default).material.name = "stone" ∧
    (getP gridAnom 4).spreadRules.canReplace = [] ∧
    (gridAnom.getD 6 default).material.type = 1 ∧
    (gridAnom.getD 6 default).material.name = "none" ∧
    (gridAnom.getD 8 default).material.type = 1 ∧
    ((UpdateSolid gridAnom 3 1 1).getD 6 default).material.name = "sand" := by
  decide

/-- C2 amended: the dispatched solid and liquid rules perform at most one
swap, chosen as the first eligible candidate of a strict priority list —
Solid: below, below-left, below-right; Liquid: below, below-left, below-right,
left, right (so with left and right both empty and nothing of higher priority
eligible the liquid moves left); the below move is eligible when the target's
material identity is "none" or in the mover's canReplace set, every other move
only when the target's material identity is exactly "none" (the code's
emptiness test is the identity name, not the category); with no eligible
candidate the grid is unchanged.  The first two conjuncts prove the code rules
equal to this spec-side description; the third states the left-preference
scenario explicitly. -/
theorem move_priority_refines_spec :
    (∀ (g : Grid) (w x y : Int), UpdateSolid g w x y = UpdateSolidSpec g w x y)
    ∧ (∀ (g : Grid) (w x y : Int),
        UpdateLiquid g w x y = UpdateLiquidSpec g w x y)
    ∧ (∀ (g : Grid) (w x y : Int) (si li : Nat),
        GetParticleAt g w x y = some si →
        belowOk g si (GetParticleAt g w x (y + 1)) = false →
        emptyAt g (GetParticleAt g w (x - 1) (y + 1)) = false →
        emptyAt g (GetParticleAt g w (x + 1) (y + 1)) = false →
        GetParticleAt g w (x - 1) y = some li →
        ParticleIsEmpty (getP g li) = true →
        UpdateLiquid g w x y = swapCells g li si) := by
  refine ⟨UpdateSolid_eq_spec, UpdateLiquid_eq_spec, ?_⟩
  intro g w x y si li hsi hb hbl hbr hli hempty
  simp only [UpdateLiquid]
  rw [hsi]
  simp only [hb, hbl, hbr, hli]
  simp [emptyAt, hempty]

/-- Witness for C2: in the concrete blocked-below scenario with both lateral
neighbors empty, the liquid at the center of `gridLiq` swaps with its LEFT
neighbor. -/
theorem move_priority_refines_spec_witness :
    UpdateLiquid gridLiq 3 1 1 = swapCells gridLiq 3 4 :=
  move_priority_refines_spec.2.2 gridLiq 3 1 1 4 3 (by decide) (by decide)
    (by decide) (by decide) (by decide) (by decide)

/-- C3 counterexample: on the 3×3 grid with a Solid "sand" at `(1, 0)` and all
other cells empty, one update tick does NOT put the particle at `(1, 1)` (flat
index 4): that cell is still empty afterwards. -/
theorem top_row_solid_does_not_fall :
    ((UpdateParticleSimulation 3 3 gridTop 0).1.getD 4 default).material.name
      ≠ "sand" := by decide

/-- C3 amended: the scan loop's bound `y > 0` never visits the top row as a
mover, so the Solid at `(1, 0)` never moves — each tick leaves the grid
unchanged and the particle stays at `(1, 0)` after one, two, or three ticks. -/
theorem top_row_solid_stays :
    UpdateParticleSimulation 3 3 gridTop 0 = (gridTop, 0) ∧
    (gridTop.getD 1 default).material.type = 1 ∧
    (gridTop.getD 1 default).material.name = "sand" := by decide

/-- C4 (code bug): GetParticleAt bounds-checks only the flat index
`y*width + x`, not the coordinates, so the out-of-bounds lookup `x = -1,
y = 1` on a 3×3 grid does not return the no-cell result: it wraps to flat
index 2, the cell `(2, 0)` of a different row. -/
theorem get_particle_at_wraps_rows :
    (¬ (0 ≤ (-1 : Int) ∧ (-1 : Int) < 3)) ∧
    GetCellIndex 3 (-1) 1 = 2 ∧
    GetParticleAt (List.replicate 9 (default : Particle)) 3 (-1) 1 = some 2 := by
  decide

/-- C7 (code bug): SwapParticles exchanges the two cells' material identity,
category and color (and their spread rules), but leaves each cell's lifeTime
where it was — the payload exchange is not complete, contradicting the claim
and the function's own "p1 becomes p2 and p2 becomes p1" contract. -/
theorem swap_leaves_lifetime_behind :
    (SwapParticles lifeA lifeB).1.material = lifeB.material ∧
    (SwapParticles lifeA lifeB).2.material = lifeA.material ∧
    (SwapParticles lifeA lifeB).1.spreadRules = lifeB.spreadRules ∧
    (SwapParticles lifeA lifeB).1.lifeTime = lifeA.lifeTime ∧
    (SwapParticles lifeA lifeB).2.lifeTime = lifeB.lifeTime ∧
    lifeA.lifeTime ≠ lifeB.lifeTime := by decide

theorem load_no_match (p : Particle) (data : List CustomMaterial)
    (h : ∀ m ∈ data, m.name ≠ p.material.name) :
    LoadParticleMaterial p data = p := by
  induction data with
  | nil => rfl
  | cons m ms ih =>
    simp only [LoadParticleMaterial, List.foldl_cons]
    rw [if_neg (h m (List.mem_cons_self m ms))]
    exact ih fun m1 hm1 => h m1 (List.mem_cons_of_mem _ hm1)

/-- C5 counterexample: painting the cell of `gridPaint` with "magic", an
identity absent from the (empty) catalog, does NOT leave the cell's prior
particle state unchanged. -/
theorem reveal_unknown_changes_cell :
    RevealParticleAt gridPaint 1 0 0 "magic" [] ≠ gridPaint := by decide

/-- C5 amended: painting a cell with an identity absent from the catalog
overwrites the cell's material name with that identity and forces its category
to Solid (the unconditional pre-lookup writes of RevealParticleAt), leaves the
lifetime, color and spread rules as they were, and reports nothing to the
caller. -/
theorem reveal_unknown_material (g : Grid) (w x y : Int) (nm : String)
    (data : List CustomMaterial) (i : Nat)
    (hi : GetParticleAt g w x y = some i)
    (hmiss : ∀ m ∈ data, m.name ≠ nm) :
    RevealParticleAt g w x y nm data =
      g.set i { getP g i with material :=
        { (getP g i).material with name := nm, type := 1 } } := by
  simp only [RevealParticleAt]
  rw [hi]
  simp only
  congr 1
  apply load_no_match
  intro m hm
  simpa using hmiss m hm

/-- Witness for C5's amended claim at a concrete cell and empty catalog. -/
theorem reveal_unknown_material_witness :
    RevealParticleAt gridPaint 1 0 0 "magic" [] =
      gridPaint.set 0 { getP gridPaint 0 with material :=
        { (getP gridPaint 0).material with name := "magic", type := 1 } } :=
  reveal_unknown_material gridPaint 1 0 0 "magic" [] 0 (by decide) (by simp)

/-- C6 counterexample: a Solid moving into an EMPTY below cell still gets its
display color overwritten (with the contact color keyed by "none" — here the
`{0,0,0,255}` fallback, since the sand defines no contact colors), so a move
into an empty neighbor does NOT leave the mover's display color unchanged. -/
theorem contact_color_set_on_empty_target :
    ((UpdateSolid gridFall 1 0 0).getD 1 default).material.name = "sand" ∧
    ((UpdateSolid gridFall 1 0 0).getD 1 default).material.color
      ≠ (⟨200, 180, 0, 255⟩ : SDLColor) := by decide

/-- C6 amended: on every Solid/Liquid below-move and every Gas move — whether
the eligible target is empty or not — the mover's display color is set before
the swap to its contactColor entry keyed by the target cell's identity
(falling back to {0,0,0,255}): conjuncts 1-3.  Only the diagonal and lateral
else-branches leave the color unchanged: conjuncts 4-9 prove that each such
branch of UpdateSolid/UpdateLiquid is a plain `swapCells` with no color write,
and conjunct 10 that a plain swap carries the mover's material — its color
included — unchanged into the target cell.  The updated color travels with the
particle into its new cell: conjunct 11, after `contactMove` the target cell
carries the mover's material with exactly the contact color. -/
theorem contact_color_on_every_move :
    (∀ (g : Grid) (w x y : Int) (si bi : Nat),
        GetParticleAt g w x y = some si →
        GetParticleAt g w x (y + 1) = some bi →
        canDisplace g si bi = true →
        UpdateSolid g w x y = contactMove g si bi) ∧
    (∀ (g : Grid) (w x y : Int) (si bi : Nat),
        GetParticleAt g w x y = some si →
        GetParticleAt g w x (y + 1) = some bi →
        canDisplace g si bi = true →
        UpdateLiquid g w x y = contactMove g si bi) ∧
    (∀ (g : Grid) (si j : Nat) (rest : List (Option Nat)),
        canDisplace g si j = true →
        gasTryMove g si (some j :: rest) = contactMove g si j) ∧
    (∀ (g : Grid) (w x y : Int) (si j : Nat),
        GetParticleAt g w x y = some si →
        belowOk g si (GetParticleAt g w x (y + 1)) = false →
        GetParticleAt g w (x - 1) (y + 1) = some j →
        ParticleIsEmpty (getP g j) = true →
        UpdateSolid g w x y = swapCells g j si) ∧
    (∀ (g : Grid) (w x y : Int) (si j : Nat),
        GetParticleAt g w x y = some si →
        belowOk g si (GetParticleAt g w x (y + 1)) = false →
        emptyAt g (GetParticleAt g w (x - 1) (y + 1)) = false →
        GetParticleAt g w (x + 1) (y + 1) = some j →
        ParticleIsEmpty (getP g j) = true →
        UpdateSolid g w x y = swapCells g j si) ∧
    (∀ (g : Grid) (w x y : Int) (si j : Nat),
        GetParticleAt g w x y = some si →
        belowOk g si (GetParticleAt g w x (y + 1)) = false →
        GetParticleAt g w (x - 1) (y + 1) = some j →
        ParticleIsEmpty (getP g j) = true →
        UpdateLiquid g w x y = swapCells g j si) ∧
    (∀ (g : Grid) (w x y : Int) (si j : Nat),
        GetParticleAt g w x y = some si →
        belowOk g si (GetParticleAt g w x (y + 1)) = false →
        emptyAt g (GetParticleAt g w (x - 1) (y + 1)) = false →
        GetParticleAt g w (x + 1) (y + 1) = some j →
        ParticleIsEmpty (getP g j) = true →
        UpdateLiquid g w x y = swapCells g j si) ∧
    (∀ (g : Grid) (w x y : Int) (si j : Nat),
        GetParticleAt g w x y = some si →
        belowOk g si (GetParticleAt g w x (y + 1)) = false →
        emptyAt g (GetParticleAt g w (x - 1) (y + 1)) = false →
        emptyAt g (GetParticleAt g w (x + 1) (y + 1)) = false →
        GetParticleAt g w (x - 1) y = some j →
        ParticleIsEmpty (getP g j) = true →
        UpdateLiquid g w x y = swapCells g j si) ∧
    (∀ (g : Grid) (w x y : Int) (si j : Nat),
        GetParticleAt g w x y = some si →
        belowOk g si (GetParticleAt g w x (y + 1)) = false →
        emptyAt g (GetParticleAt g w (x - 1) (y + 1)) = false →
        emptyAt g (GetParticleAt g w (x + 1) (y + 1)) = false →
        emptyAt g (GetParticleAt g w (x - 1) y) = false →
        GetParticleAt g w (x + 1) y = some j →
        ParticleIsEmpty (getP g j) = true →
        UpdateLiquid g w x y = swapCells g j si) ∧
    (∀ (g : Grid) (j si : Nat), j ≠ si → j < g.length → si < g.length →
        (getP (swapCells g j si) j).material = (getP g si).material) ∧
    (∀ (g : Grid) (si ti : Nat), si ≠ ti → si < g.length → ti < g.length →
        (getP (contactMove g si ti) ti).material =
          { (getP g si).material with
              color := GetParticleContactColor (getP g si)
                ((getP g ti).material.name) }) := by
  refine ⟨?_, ?_, ?_, ?_, ?_, ?_, ?_, ?_, ?_, ?_, ?_⟩
  · intro g w x y si bi hsi hbi hcan
    simp only [UpdateSolid]
    rw [hsi]
    simp [hbi, belowOk, hcan]
  · intro g w x y si bi hsi hbi hcan
    simp only [UpdateLiquid]
    rw [hsi]
    simp [hbi, belowOk, hcan]
  · intro g si j rest hcan
    simp [gasTryMove, hcan]
  · intro g w x y si j hsi hb hj hempty
    simp only [UpdateSolid]
    rw [hsi]
    simp only [hb, hj]
    simp [emptyAt, hempty]
  · intro g w x y si j hsi hb hbl hj hempty
    simp only [UpdateSolid]
    rw [hsi]
    simp only [hb, hbl, hj]
    simp [emptyAt, hempty]
  · intro g w x y si j hsi hb hj hempty
    simp only [UpdateLiquid]
    rw [hsi]
    simp only [hb, hj]
    simp [emptyAt, hempty]
  · intro g w x y si j hsi hb hbl hj hempty
    simp only [UpdateLiquid]
    rw [hsi]
    simp only [hb, hbl, hj]
    simp [emptyAt, hempty]
  · intro g w x y si j hsi hb hbl hbr hj hempty
    simp only [UpdateLiquid]
    rw [hsi]
    simp only [hb, hbl, hbr, hj]
    simp [emptyAt, hempty]
  · intro g w x y si j hsi hb hbl hbr hl hj hempty
    simp only [UpdateLiquid]
    rw [hsi]
    simp only [hb, hbl, hbr, hl, hj]
    simp [emptyAt, hempty]
  · intro g j si hne hj hsi
    simp only [swapCells, SwapParticles]
    rw [getP_set_other _ si j _ (Ne.symm hne)]
    rw [getP_set_same _ j _ hj]
  · intro g si ti hne hsi hti
    have hq : getP (setColor g si (GetParticleContactColor (getP g si)
        ((getP g ti).material.name))) si
        = { getP g si with material := { (getP g si).material with
            color := GetParticleContactColor (getP g si)
              ((getP g ti).material.name) } } := by
      simp only [setColor]
      exact getP_set_same g si _ hsi
    have hlen : (setColor g si (GetParticleContactColor (getP g si)
        ((getP g ti).material.name))).length = g.length := by
      simp [setColor]
    simp only [contactMove, swapCells, SwapParticles]
    rw [getP_set_other _ si ti _ hne]
    rw [getP_set_same _ ti _ (by rw [hlen]; exact hti)]
    rw [hq]

/-- Witness for C6's amended claim: the sand of `gridFall` below-moves into
the empty cell via `contactMove` and the moved-into cell carries the sand's
material recolored with the contact color keyed by the empty cell's "none";
the blocked sand of `gridSlide` slides below-left via a plain `swapCells`,
which carries its material — color included — unchanged. -/
theorem contact_color_on_every_move_witness :
    UpdateSolid gridFall 1 0 0 = contactMove gridFall 0 1 ∧
    UpdateSolid gridSlide 3 1 1 = swapCells gridSlide 6 4 ∧
    (getP (swapCells gridSlide 6 4) 6).material = (getP gridSlide 4).material ∧
    (getP (contactMove gridFall 0 1) 1).material =
      { (getP gridFall 0).material with
          color := GetParticleContactColor (getP gridFall 0)
            ((getP gridFall 1).material.name) } :=
  ⟨contact_color_on_every_move.1 gridFall 1 0 0 0 1 (by decide) (by decide)
      (by decide),
   contact_color_on_every_move.2.2.2.1 gridSlide 3 1 1 4 6 (by decide)
      (by decide) (by decide) (by decide),
   contact_color_on_every_move.2.2.2.2.2.2.2.2.2.1 gridSlide 6 4 (by decide)
      (by decide) (by decide),
   contact_color_on_every_move.2.2.2.2.2.2.2.2.2.2 gridFall 0 1 (by decide)
      (by decide) (by decide)⟩

theorem gasTryMove_first (g : Grid) (si : Nat) :
    ∀ ds : List (Option Nat),
      gasTryMove g si ds =
        match gasFirstEligible g si ds with
        | none => g
        | some j => contactMove g si j := by
  intro ds
  induction ds with
  | nil => rfl
  | cons d rest ih =>
    cases d with
    | none => simpa [gasTryMove, gasFirstEligible] using ih
    | some j =>
      by_cases h : canDisplace g si j
      · simp [gasTryMove, gasFirstEligible, h]
      · simp [gasTryMove, gasFirstEligible, h, ih]

/-- C8: the gas rule shuffles the candidate list {above, left, right, below}
(conjunct 2: the shuffle's output is always a permutation of it), tries the
shuffled candidates in order and swaps with the first eligible one — empty or
in the gas particle's canReplace set — performing at most one swap (conjunct
1: the loop equals apply-first-eligible).  With all four neighbors present and
empty, each direction heads exactly 6 of the 24 candidate orderings (conjunct 3,
with the orderings enumerated by the structural permutations function), so a shuffle that is uniform over the orderings picks each direction with
probability 1/4, and every ordering makes the gas swap with that ordering's
first candidate (conjunct 4). -/
theorem gas_first_eligible_uniform :
    (∀ (g : Grid) (si : Nat) (ds : List (Option Nat)),
        gasTryMove g si ds =
          match gasFirstEligible g si ds with
          | none => g
          | some j => contactMove g si j) ∧
    (∀ (l : List (Option Nat)) (s : Nat), ((stdShuffle l s).1).Perm l) ∧
    (((gasDirections gridGas 3 1 1).permutations'.filter
        (fun ds => ds.head? = some (some 1))).length = 6 ∧
      ((gasDirections gridGas 3 1 1).permutations'.filter
        (fun ds => ds.head? = some (some 3))).length = 6 ∧
      ((gasDirections gridGas 3 1 1).permutations'.filter
        (fun ds => ds.head? = some (some 5))).length = 6 ∧
      ((gasDirections gridGas 3 1 1).permutations'.filter
        (fun ds => ds.head? = some (some 7))).length = 6) ∧
    (∀ ds : List (Option Nat),
        ds ∈ (gasDirections gridGas 3 1 1).permutations' →
        UpdateGasWith gridGas 3 1 1 ds =
          contactMove gridGas 4 ((ds.headD none).getD 0)) := by
  exact ⟨gasTryMove_first, fun l s => stdShuffle_perm l s, by decide, by decide⟩

/-- Witness for C8: one concrete ordering of the four (empty) neighbors of the
steam cell makes the gas swap with that ordering's first candidate, the cell
above. -/
theorem gas_first_eligible_uniform_witness :
    UpdateGasWith gridGas 3 1 1 [some 1, some 3, some 5, some 7] =
      contactMove gridGas 4 1 :=
  gas_first_eligible_uniform.2.2.2 [some 1, some 3, some 5, some 7] (by decide)

/-- C9: a Medium/Big paint action over a clamped box performs exactly
`⌊0.2 × boxArea⌋` paint attempts (conjunct 1 — the count the C++ obtains as
`static_cast<int>(totalParticles * 0.2)`), every painted coordinate lies
inside the box because each sampled offset is clamped back into it (conjunct
2), and the paints performed are exactly those clamped coordinates in
iteration order — repeated collisions included, each simply repainting its
cell (conjunct 3). -/
theorem brush_scatter_bounds (bounds : Rect) (samples : Nat → Int × Int)
    (hx : bounds.x ≤ bounds.w) (hy : bounds.y ≤ bounds.h) :
    (scatterCoords bounds samples).length
      = (Int.tdiv ((bounds.w - bounds.x + 1) * (bounds.h - bounds.y + 1))
          5).toNat ∧
    (∀ c ∈ scatterCoords bounds samples,
        bounds.x ≤ c.1 ∧ c.1 ≤ bounds.w ∧ bounds.y ≤ c.2 ∧ c.2 ≤ bounds.h) ∧
    (∀ (g : Grid) (w : Int) (nm : String) (data : List CustomMaterial),
        RevealParticlesAt g w bounds nm data samples
          = (scatterCoords bounds samples).foldl
              (fun g c => RevealParticleAt g w c.1 c.2 nm data) g) := by
  refine ⟨by simp [scatterCoords, particlesToReveal], ?_, ?_⟩
  · intro c hc
    simp only [scatterCoords, List.mem_map] at hc
    obtain ⟨i, hi, rfl⟩ := hc
    simp only [clampScatter]
    exact ⟨le_max_left _ _, max_le hx (min_le_right _ _),
      le_max_left _ _, max_le hy (min_le_right _ _)⟩
  · intro g w nm data
    rw [RevealParticlesAt, scatterCoords, List.foldl_map]

/-- Witness for C9 on a concrete 5×5 box (area 25, so 5 attempts) and a
constant out-of-box sample that the clamp pulls back inside. -/
theorem brush_scatter_bounds_witness :
    (scatterCoords rectSample (fun _ => (10, -3))).length = 5 ∧
    ∀ c ∈ scatterCoords rectSample (fun _ => (10, -3)),
      rectSample.x ≤ c.1 ∧ c.1 ≤ rectSample.w ∧
        rectSample.y ≤ c.2 ∧ c.2 ≤ rectSample.h :=
  ⟨((brush_scatter_bounds rectSample (fun _ => (10, -3)) (by decide)
      (by decide)).1).trans (by decide),
   (brush_scatter_bounds rectSample (fun _ => (10, -3)) (by decide)
      (by decide)).2.1⟩

/-- C10: the gas shuffle draws from the process-global default-constructed,
never-seeded engine `rng`, which is distinct from the random_device-seeded
`gen` used by RandomFloat and the brush scatter, so the `k`-th gas-direction
permutation a run draws is identical across any two runs (conjunct 1); the
rng always starts from the fixed default seed whatever the run (conjunct 2),
while gen's starting state does depend on the run (conjunct 3). -/
theorem gas_rng_run_independent :
    (∀ (r1 r2 : ProgramRun) (k : Nat),
        kthGasShuffle r1 k = kthGasShuffle r2 k) ∧
    (∀ r : ProgramRun, initialRngState r = defaultEngineState) ∧
    (∃ r1 r2 : ProgramRun, initialGenState r1 ≠ initialGenState r2) := by
  refine ⟨?_, fun _ => rfl, ⟨⟨0⟩, ⟨1⟩, by decide⟩⟩
  have hstate : ∀ (r1 r2 : ProgramRun) (k : Nat),
      rngStateAfter r1 k = rngStateAfter r2 k := by
    intro r1 r2 k
    induction k with
    | zero => rfl
    | succ n ih => simp [rngStateAfter, ih]
  intro r1 r2 k
  simp [kthGasShuffle, hstate r1 r2 k]

end ParticleSim
